import Mathlib

/-!
Shallow embedding of the UniSave frontend client
(src/frontend/src/App.tsx and src/frontend/src/services/api.ts).

The API layer (api.ts) wraps `fetch`; we model a parsed HTTP response as a
record carrying the `ok` flag, the success-body, and the optional `error`
field of the JSON body, and each API function as a pure function from that
response to `Except String α` (a thrown `Error(msg)` becomes `.error msg`).

The React component state (the `useState` hooks of `App`) is the record
`AppState`; the two async event handlers `handleUpload` / `handleAnalyze`
become pure transition functions taking the outcome of the awaited network
call as an extra argument, and additionally reporting whether a network
request was issued (`Bool` for upload, the JSON request body
`Option AnalyzeRequest` for analyze).
-/

/-- Interface `UploadResponse` of api.ts. -/
structure UploadResponse where
  id : Int
  title : String
  file : String
  file_url : String
  uploaded_at : String
  processing_status : String
  processing_message : String
deriving DecidableEq

/-- Interface `Claim` of api.ts. -/
structure Claim where
  claim : String
  quote_anchor : String
  page_hint : Int
  page_id : Option Int
  status : String
  score : Int
  bboxes : List (List Int)
deriving DecidableEq

/-- Interface `AnalyzeResponse` of api.ts. -/
structure AnalyzeResponse where
  answer : String
  claims : List Claim
  chunks_used : Int
  document_title : String
deriving DecidableEq

/-- Interface `Document` of api.ts. -/
structure Document where
  id : Int
  title : String
  file : String
  file_url : String
  uploaded_at : String
deriving DecidableEq

/-- A parsed HTTP response as the api.ts functions observe it: the `ok`
flag of `fetch`, the success payload, and the optional `error` field read
from the JSON body on the failure path. -/
structure HttpResponse (α : Type) where
  ok : Bool
  body : α
  errorField : Option String
deriving DecidableEq

/-- JavaScript `x || d` for `x` the `error` field of a parsed JSON body:
the fallback `d` is used when the field is absent or falsy (empty string). -/
def jsOrString : Option String → String → String
  | none, d => d
  | some s, d => if s = "" then d else s

/-- `uploadDocument` of api.ts, response handling: on non-ok it throws
`error.error || 'Upload failed'`, otherwise returns the parsed body. -/
def uploadDocument (resp : HttpResponse UploadResponse) :
    Except String UploadResponse :=
  if resp.ok then .ok resp.body
  else .error (jsOrString resp.errorField "Upload failed")

/-- `getDocuments` of api.ts: on non-ok it throws the fixed message
`'Failed to fetch documents'` without reading the body. -/
def getDocuments (resp : HttpResponse (List Document)) :
    Except String (List Document) :=
  if resp.ok then .ok resp.body
  else .error "Failed to fetch documents"

/-- The JSON request body `{ doc_id, question }` sent by `analyzeDocument`
of api.ts. -/
structure AnalyzeRequest where
  doc_id : Int
  question : String
deriving DecidableEq

/-- Body construction of `analyzeDocument` (api.ts lines 88-91). -/
def analyzeRequestBody (docId : Int) (question : String) : AnalyzeRequest :=
  { doc_id := docId, question := question }

/-- `analyzeDocument` of api.ts, response handling: on non-ok it throws
`error.error || 'Analysis failed'`, otherwise returns the parsed body. -/
def analyzeDocument (resp : HttpResponse AnalyzeResponse) :
    Except String AnalyzeResponse :=
  if resp.ok then .ok resp.body
  else .error (jsOrString resp.errorField "Analysis failed")

/-- JavaScript `String.prototype.toLowerCase` restricted to simple
per-character lowering (the filenames involved only need ASCII). -/
def jsToLower (s : String) : String := String.mk (s.data.map Char.toLower)

/-- JavaScript `String.prototype.endsWith`. -/
def jsEndsWith (s suffix : String) : Bool := suffix.data.isSuffixOf s.data

/-- JavaScript `String.prototype.trim`: strip leading and trailing
whitespace. -/
def jsTrim (s : String) : String :=
  String.mk (((s.data.dropWhile Char.isWhitespace).reverse.dropWhile
    Char.isWhitespace).reverse)

/-- The DOM file object: the upload handler only reads `file.name`. -/
structure JsFile where
  name : String
deriving DecidableEq

/-- The `useState` hooks of the `App` component, plus the value of the
file-input DOM element held in `fileInputRef`. -/
structure AppState where
  activeDocId : Option Int
  currentFileUrl : Option String
  documentTitle : String
  question : String
  result : Option AnalyzeResponse
  highlights : List Claim
  error : Option String
  isUploading : Bool
  isAnalyzing : Bool
  uploadSuccess : Bool
  uploadMessage : Option String
  fileInputValue : String
deriving DecidableEq

/-- The initial state of `App`: every `useState` initializer. -/
def initialState : AppState :=
  { activeDocId := none
    currentFileUrl := none
    documentTitle := ""
    question := ""
    result := none
    highlights := []
    error := none
    isUploading := false
    isAnalyzing := false
    uploadSuccess := false
    uploadMessage := none
    fileInputValue := "" }

/-- Backend URL constant of App.tsx. -/
def BACKEND_URL : String := "http://127.0.0.1:8000"

/-- JavaScript truthiness of `activeDocId : number | null`: `!activeDocId`
is true exactly when the value is `null` or `0`. -/
def jsFalsyNum : Option Int → Bool
  | none => true
  | some n => n == 0

/-- The setter of the question textarea (`onChange` at App.tsx line 226). -/
def setQuestion (s : AppState) (q : String) : AppState :=
  { s with question := q }

/-- The state updates of `handleUpload` before the `await` (App.tsx
lines 38-41). -/
def uploadStart (s : AppState) : AppState :=
  { s with isUploading := true, error := none,
           uploadSuccess := false, uploadMessage := none }

/-- The `try`/`catch` body of `handleUpload` after the `await` resolves
(App.tsx lines 44-67): on success the document state is set from the
response and the previous analysis state is cleared; on failure the thrown
message becomes the error. -/
def uploadSettle (s : AppState) : Except String UploadResponse → AppState
  | .ok resp =>
    { s with activeDocId := some resp.id
             currentFileUrl := some (BACKEND_URL ++ resp.file_url)
             documentTitle := resp.title
             result := none
             highlights := []
             question := ""
             uploadSuccess := true
             uploadMessage := some resp.processing_message }
  | .error msg => { s with error := some msg }

/-- The `finally` block of `handleUpload` (App.tsx lines 68-74): clear the
in-flight flag and reset the file-input value. -/
def uploadFinally (s : AppState) : AppState :=
  { s with isUploading := false, fileInputValue := "" }

/-- `handleUpload` of App.tsx, as a pure transition: given the selected
file (if any) and the outcome of the awaited `uploadDocument` call, return
the new state and whether the network call was made.  The PDF-extension
guard returns before the `try`/`finally`, so a rejected file issues no
request and skips the `finally` block. -/
def handleUpload (s : AppState) (selected : Option JsFile)
    (o : Except String UploadResponse) : AppState × Bool :=
  match selected with
  | none => (s, false)
  | some file =>
    if !(jsEndsWith (jsToLower file.name) ".pdf") then
      ({ s with error := some "Please select a PDF file" }, false)
    else
      (uploadFinally (uploadSettle (uploadStart s) o), true)

/-- The state updates of `handleAnalyze` before the `await` (App.tsx
lines 91-94). -/
def analyzeStart (s : AppState) : AppState :=
  { s with isAnalyzing := true, error := none, result := none,
           highlights := [] }

/-- The `try`/`catch`/`finally` of `handleAnalyze` after the `await`
resolves (App.tsx lines 96-104). -/
def analyzeSettle (s : AppState) : Except String AnalyzeResponse → AppState
  | .ok resp =>
    { s with result := some resp, highlights := resp.claims,
             isAnalyzing := false }
  | .error msg => { s with error := some msg, isAnalyzing := false }

/-- `handleAnalyze` of App.tsx, as a pure transition: given the outcome of
the awaited `analyzeDocument` call, return the new state and the request
body sent (`none` when a client-side precondition short-circuits before the
network call).  The guard `if (!activeDocId)` is JavaScript truthiness, so
`0` is treated as absent. -/
def handleAnalyze (s : AppState) (o : Except String AnalyzeResponse) :
    AppState × Option AnalyzeRequest :=
  if jsFalsyNum s.activeDocId then
    ({ s with error := some "Please upload a document first" }, none)
  else if jsTrim s.question = "" then
    ({ s with error := some "Please enter a question" }, none)
  else
    (analyzeSettle (analyzeStart s) o,
     some (analyzeRequestBody (s.activeDocId.getD 0) s.question))

/-- `getStatusColor` of App.tsx. -/
def getStatusColor (status : String) : String :=
  if status = "VERIFIED" then "bg-green-100 text-green-800 border-green-300"
  else if status = "LIKELY" then "bg-yellow-100 text-yellow-800 border-yellow-300"
  else if status = "UNVERIFIED" then "bg-red-100 text-red-800 border-red-300"
  else "bg-gray-100 text-gray-800 border-gray-300"

/-- `getStatusIcon` of App.tsx. -/
def getStatusIcon (status : String) : String :=
  if status = "VERIFIED" then "✓"
  else if status = "LIKELY" then "⚠"
  else if status = "UNVERIFIED" then "✗"
  else "?"

/-- A sample successful upload payload used by concrete witnesses. -/
def sampleUploadResponse : UploadResponse :=
  { id := 7
    title := "Notes"
    file := "documents/notes.pdf"
    file_url := "/media/notes.pdf"
    uploaded_at := "2024-01-01T00:00:00Z"
    processing_status := "success"
    processing_message := "Document processed" }

/-- C1: a selected file whose name does not end in ".pdf" (case-insensitively)
makes the upload handler set the error "Please select a PDF file" and return
without calling the API Client upload operation. -/
theorem upload_rejects_non_pdf (s : AppState) (file : JsFile)
    (o : Except String UploadResponse)
    (h : jsEndsWith (jsToLower file.name) ".pdf" = false) :
    handleUpload s (some file) o =
      ({ s with error := some "Please select a PDF file" }, false) := by
  simp [handleUpload, h]

/-- Witness for C1: the file "notes.txt" is rejected locally. -/
theorem upload_rejects_non_pdf_witness :
    jsEndsWith (jsToLower "notes.txt") ".pdf" = false ∧
    handleUpload initialState (some ⟨"notes.txt"⟩) (.error "x") =
      ({ initialState with error := some "Please select a PDF file" }, false) :=
  ⟨by decide,
   upload_rejects_non_pdf initialState ⟨"notes.txt"⟩ (.error "x") (by decide)⟩

/-- State with a stored active document id of `0`, as the analyze guard
sees it. -/
def zeroIdState : AppState := { initialState with activeDocId := some 0 }

/-- C2 (amended): the analyze handler rejects with "Please upload a
document first" whenever the stored id is JS-falsy (absent or `0`);
otherwise an empty trimmed question is rejected with "Please enter a
question"; the network request is issued exactly when the id is truthy and
the trimmed question is non-empty. -/
theorem analyze_preconditions (s : AppState)
    (o : Except String AnalyzeResponse) :
    (jsFalsyNum s.activeDocId = true →
      handleAnalyze s o =
        ({ s with error := some "Please upload a document first" }, none)) ∧
    (jsFalsyNum s.activeDocId = false → jsTrim s.question = "" →
      handleAnalyze s o =
        ({ s with error := some "Please enter a question" }, none)) ∧
    ((handleAnalyze s o).2 ≠ none ↔
      (jsFalsyNum s.activeDocId = false ∧ jsTrim s.question ≠ "")) := by
  refine ⟨fun h => by simp [handleAnalyze, h],
          fun h h2 => by simp [handleAnalyze, h, h2], ?_⟩
  cases h1 : jsFalsyNum s.activeDocId with
  | true => simp [handleAnalyze, h1]
  | false =>
    by_cases h2 : jsTrim s.question = "" <;> simp [handleAnalyze, h1, h2]

/-- Counterexample for C2 as stated: with an active document id that IS set
(`some 0`) and an empty question, the claim's "otherwise" branch predicts
the error "Please enter a question", but the handler's truthiness guard
fires first and produces "Please upload a document first". -/
theorem analyze_preconditions_cex :
    zeroIdState.activeDocId ≠ none ∧
    jsTrim zeroIdState.question = "" ∧
    (handleAnalyze zeroIdState (.error "x")).1.error =
      some "Please upload a document first" ∧
    (handleAnalyze zeroIdState (.error "x")).1.error ≠
      some "Please enter a question" := by decide

/-- Witness for C2: from the initial state (no document), analyze rejects
with "Please upload a document first" and sends no request. -/
theorem analyze_preconditions_witness :
    handleAnalyze initialState (.error "x") =
      ({ initialState with error := some "Please upload a document first" },
       none) :=
  (analyze_preconditions initialState (.error "x")).1 (by decide)

/-- C3: a successful upload stores the response id, title and
backend-origin-prefixed file_url, and clears the previous result,
highlights and question. -/
theorem upload_success_sets_document (s : AppState) (file : JsFile)
    (resp : UploadResponse)
    (h : jsEndsWith (jsToLower file.name) ".pdf" = true) :
    ((handleUpload s (some file) (.ok resp)).1.activeDocId = some resp.id) ∧
    ((handleUpload s (some file) (.ok resp)).1.documentTitle = resp.title) ∧
    ((handleUpload s (some file) (.ok resp)).1.currentFileUrl =
      some ("http://127.0.0.1:8000" ++ resp.file_url)) ∧
    ((handleUpload s (some file) (.ok resp)).1.result = none) ∧
    ((handleUpload s (some file) (.ok resp)).1.highlights = []) ∧
    ((handleUpload s (some file) (.ok resp)).1.question = "") := by
  simp [handleUpload, h, uploadFinally, uploadSettle, uploadStart,
    BACKEND_URL]

/-- Witness for C3: uploading "notes.pdf" with response id 7 and file_url
"/media/notes.pdf" makes document 7 active with preview
"http://127.0.0.1:8000/media/notes.pdf". -/
theorem upload_success_sets_document_witness :
    jsEndsWith (jsToLower "notes.pdf") ".pdf" = true ∧
    (handleUpload initialState (some ⟨"notes.pdf"⟩)
      (.ok sampleUploadResponse)).1.activeDocId = some 7 ∧
    (handleUpload initialState (some ⟨"notes.pdf"⟩)
      (.ok sampleUploadResponse)).1.currentFileUrl =
      some ("http://127.0.0.1:8000" ++ "/media/notes.pdf") :=
  ⟨by decide,
   (upload_success_sets_document initialState ⟨"notes.pdf"⟩
     sampleUploadResponse (by decide)).1,
   (upload_success_sets_document initialState ⟨"notes.pdf"⟩
     sampleUploadResponse (by decide)).2.2.1⟩

/-- C4: when the upload request throws, the handler records the thrown
message as the error, and the active document id, title, preview URL —
and the previous analysis state — are preserved. -/
theorem upload_failure_preserves_document (s : AppState) (file : JsFile)
    (msg : String)
    (h : jsEndsWith (jsToLower file.name) ".pdf" = true) :
    ((handleUpload s (some file) (.error msg)).1.error = some msg) ∧
    ((handleUpload s (some file) (.error msg)).1.activeDocId =
      s.activeDocId) ∧
    ((handleUpload s (some file) (.error msg)).1.documentTitle =
      s.documentTitle) ∧
    ((handleUpload s (some file) (.error msg)).1.currentFileUrl =
      s.currentFileUrl) ∧
    ((handleUpload s (some file) (.error msg)).1.result = s.result) ∧
    ((handleUpload s (some file) (.error msg)).1.highlights =
      s.highlights) ∧
    ((handleUpload s (some file) (.error msg)).1.question = s.question) := by
  simp [handleUpload, h, uploadFinally, uploadSettle, uploadStart]

/-- Witness for C4: a failed upload of "a.pdf" from a state with document 7
active leaves document 7 active. -/
theorem upload_failure_preserves_document_witness :
    jsEndsWith (jsToLower "a.pdf") ".pdf" = true ∧
    ((handleUpload { initialState with activeDocId := some 7 }
      (some ⟨"a.pdf"⟩) (.error "No file provided")).1.error =
      some "No file provided") ∧
    ((handleUpload { initialState with activeDocId := some 7 }
      (some ⟨"a.pdf"⟩) (.error "No file provided")).1.activeDocId =
      some 7) :=
  ⟨by decide,
   (upload_failure_preserves_document { initialState with
     activeDocId := some 7 } ⟨"a.pdf"⟩ "No file provided" (by decide)).1,
   (upload_failure_preserves_document { initialState with
     activeDocId := some 7 } ⟨"a.pdf"⟩ "No file provided" (by decide)).2.1⟩

/-- C5: when both analyze preconditions hold, result, highlights and error
are cleared before the request is sent (state `analyzeStart s` at the
`await`), and a failed request sets the error while result and highlights
stay cleared. -/
theorem analyze_clears_state (s : AppState) (msg : String)
    (h1 : jsFalsyNum s.activeDocId = false)
    (h2 : jsTrim s.question ≠ "") :
    ((analyzeStart s).result = none) ∧
    ((analyzeStart s).highlights = []) ∧
    ((analyzeStart s).error = none) ∧
    ((handleAnalyze s (.error msg)).1.error = some msg) ∧
    ((handleAnalyze s (.error msg)).1.result = none) ∧
    ((handleAnalyze s (.error msg)).1.highlights = []) := by
  simp [handleAnalyze, analyzeStart, analyzeSettle, h1, h2]

/-- State with document 7 active and a question entered, ready for a
well-formed analyze call. -/
def analyzeReadyState : AppState :=
  { initialState with
      activeDocId := some 7
      question := "What is the thesis?" }

/-- Witness for C5: with document 7 active and question "What is the
thesis?", a failed analysis leaves error set and no partial result. -/
theorem analyze_clears_state_witness :
    jsFalsyNum analyzeReadyState.activeDocId = false ∧
    jsTrim analyzeReadyState.question ≠ "" ∧
    ((handleAnalyze analyzeReadyState
      (.error "Analysis failed")).1.result = none) :=
  ⟨by decide, by decide,
   (analyze_clears_state analyzeReadyState "Analysis failed"
     (by decide) (by decide)).2.2.2.2.1⟩

/-- C6: the status presentation is a pure total function: VERIFIED maps to
the green class and "✓", LIKELY to yellow and "⚠", UNVERIFIED to red and
"✗", and every other string to gray and "?". -/
theorem status_presentation (status : String) :
    getStatusColor "VERIFIED" =
      "bg-green-100 text-green-800 border-green-300" ∧
    getStatusIcon "VERIFIED" = "✓" ∧
    getStatusColor "LIKELY" =
      "bg-yellow-100 text-yellow-800 border-yellow-300" ∧
    getStatusIcon "LIKELY" = "⚠" ∧
    getStatusColor "UNVERIFIED" =
      "bg-red-100 text-red-800 border-red-300" ∧
    getStatusIcon "UNVERIFIED" = "✗" ∧
    (status ≠ "VERIFIED" → status ≠ "LIKELY" → status ≠ "UNVERIFIED" →
      getStatusColor status = "bg-gray-100 text-gray-800 border-gray-300" ∧
      getStatusIcon status = "?") := by
  refine ⟨by decide, by decide, by decide, by decide, by decide, by decide,
    fun h1 h2 h3 => ?_⟩
  simp [getStatusColor, getStatusIcon, h1, h2, h3]

/-- Witness for C6: the unknown status "PROBABLY" gets the gray fallback
presentation. -/
theorem status_presentation_witness :
    getStatusColor "PROBABLY" =
      "bg-gray-100 text-gray-800 border-gray-300" ∧
    getStatusIcon "PROBABLY" = "?" :=
  (status_presentation "PROBABLY").2.2.2.2.2.2
    (by decide) (by decide) (by decide)

/-- A sample claim payload used by concrete witnesses. -/
def sampleClaim : Claim :=
  { claim := "The thesis is X"
    quote_anchor := "X is the thesis"
    page_hint := 1
    page_id := none
    status := "VERIFIED"
    score := 92
    bboxes := [[1, 2, 3, 4]] }

/-- A sample analysis payload used by concrete witnesses. -/
def sampleAnalyzeResponse : AnalyzeResponse :=
  { answer := "X"
    claims := [sampleClaim]
    chunks_used := 3
    document_title := "Notes" }

/-- C7 (amended): on a non-success response, upload throws the server
`error` field when it is present and non-empty and "Upload failed"
otherwise (the JS `||` also falls back on an empty string); analyze
likewise throws the field or "Analysis failed"; the document-list
operation always throws "Failed to fetch documents". -/
theorem api_error_messages
    (u : HttpResponse UploadResponse) (a : HttpResponse AnalyzeResponse)
    (d : HttpResponse (List Document))
    (hu : u.ok = false) (ha : a.ok = false) (hd : d.ok = false) :
    (∀ m, m ≠ "" → u.errorField = some m → uploadDocument u = .error m) ∧
    ((u.errorField = none ∨ u.errorField = some "") →
      uploadDocument u = .error "Upload failed") ∧
    (∀ m, m ≠ "" → a.errorField = some m → analyzeDocument a = .error m) ∧
    ((a.errorField = none ∨ a.errorField = some "") →
      analyzeDocument a = .error "Analysis failed") ∧
    getDocuments d = .error "Failed to fetch documents" := by
  refine ⟨?_, ?_, ?_, ?_, ?_⟩
  · intro m hm he; simp [uploadDocument, hu, he, jsOrString, hm]
  · rintro (he | he) <;> simp [uploadDocument, hu, he, jsOrString]
  · intro m hm he; simp [analyzeDocument, ha, he, jsOrString, hm]
  · rintro (he | he) <;> simp [analyzeDocument, ha, he, jsOrString]
  · simp [getDocuments, hd]

/-- A failed upload response whose JSON body carries `error: ""`. -/
def emptyErrorUploadHttp : HttpResponse UploadResponse :=
  { ok := false, body := sampleUploadResponse, errorField := some "" }

/-- Counterexample for C7 as stated: the server `error` field is present
(with value "") on this failed response, yet the thrown message is the
fallback "Upload failed", not the field value — JS `||` treats the empty
string as absent. -/
theorem api_error_messages_cex :
    emptyErrorUploadHttp.ok = false ∧
    emptyErrorUploadHttp.errorField = some "" ∧
    uploadDocument emptyErrorUploadHttp = .error "Upload failed" ∧
    "Upload failed" ≠ "" := by
  refine ⟨rfl, rfl, rfl, by decide⟩

/-- A failed upload response with a non-empty server message. -/
def boomUploadHttp : HttpResponse UploadResponse :=
  { ok := false, body := sampleUploadResponse, errorField := some "boom" }

/-- A failed analyze response with a non-empty server message. -/
def boomAnalyzeHttp : HttpResponse AnalyzeResponse :=
  { ok := false, body := sampleAnalyzeResponse, errorField := some "boom" }

/-- A failed document-list response. -/
def failDocsHttp : HttpResponse (List Document) :=
  { ok := false, body := [], errorField := some "ignored" }

/-- Witness for C7: concrete failed responses produce the server message
for upload and analyze, and the fixed message for the listing. -/
theorem api_error_messages_witness :
    uploadDocument boomUploadHttp = .error "boom" ∧
    analyzeDocument boomAnalyzeHttp = .error "boom" ∧
    getDocuments failDocsHttp = .error "Failed to fetch documents" :=
  ⟨(api_error_messages boomUploadHttp boomAnalyzeHttp failDocsHttp
      rfl rfl rfl).1 "boom" (by decide) rfl,
   (api_error_messages boomUploadHttp boomAnalyzeHttp failDocsHttp
      rfl rfl rfl).2.2.1 "boom" (by decide) rfl,
   (api_error_messages boomUploadHttp boomAnalyzeHttp failDocsHttp
      rfl rfl rfl).2.2.2.2⟩

/-- Helper: whenever the analyze handler issues a request, its `doc_id` is
the stored active document id. -/
theorem analyze_request_from_state (s : AppState)
    (o : Except String AnalyzeResponse) (req : AnalyzeRequest)
    (h : (handleAnalyze s o).2 = some req) :
    s.activeDocId = some req.doc_id := by
  unfold handleAnalyze at h
  by_cases h1 : jsFalsyNum s.activeDocId
  · simp [h1] at h
  · by_cases h2 : jsTrim s.question = ""
    · simp [h1, h2] at h
    · simp only [h1, h2, Bool.false_eq_true, if_false, if_neg,
        Option.some.injEq] at h
      cases hd : s.activeDocId with
      | none => simp [jsFalsyNum, hd] at h1
      | some n =>
        rw [← h]
        simp [analyzeRequestBody, hd]

/-- C8: after a successful upload (and entering a question, with no
intervening upload), the `doc_id` of the request body sent by the analyze
handler equals the `id` returned by that upload. -/
theorem upload_analyze_roundtrip (s : AppState) (file : JsFile)
    (resp : UploadResponse) (q : String)
    (o : Except String AnalyzeResponse) (req : AnalyzeRequest)
    (hpdf : jsEndsWith (jsToLower file.name) ".pdf" = true)
    (h : (handleAnalyze
        (setQuestion (handleUpload s (some file) (.ok resp)).1 q) o).2 =
      some req) :
    req.doc_id = resp.id := by
  have hid : (setQuestion (handleUpload s (some file) (.ok resp)).1
      q).activeDocId = some resp.id := by
    simp [setQuestion, handleUpload, hpdf, uploadFinally, uploadSettle,
      uploadStart]
  have h2 := analyze_request_from_state _ o req h
  rw [hid] at h2
  exact (Option.some.inj h2).symm

/-- Witness for C8: uploading response id 7 then analyzing "What is the
thesis?" sends doc_id 7. -/
theorem upload_analyze_roundtrip_witness :
    (handleAnalyze (setQuestion (handleUpload initialState
        (some ⟨"notes.pdf"⟩) (.ok sampleUploadResponse)).1
        "What is the thesis?") (.error "x")).2 =
      some (AnalyzeRequest.mk 7 "What is the thesis?") ∧
    (AnalyzeRequest.mk 7 "What is the thesis?").doc_id =
      sampleUploadResponse.id :=
  ⟨by decide,
   upload_analyze_roundtrip initialState ⟨"notes.pdf"⟩
     sampleUploadResponse "What is the thesis?" (.error "x")
     (AnalyzeRequest.mk 7 "What is the thesis?") (by decide) (by decide)⟩

/-- C9 (amended): the file-input value is reset to "" after every upload
attempt that passes the PDF-filename validation, whether the request
succeeds or fails; an attempt rejected by the validation returns before
the `try`/`finally` and leaves the file-input value unchanged. -/
theorem upload_resets_file_input (s : AppState) (file : JsFile)
    (o : Except String UploadResponse) :
    (jsEndsWith (jsToLower file.name) ".pdf" = true →
      (handleUpload s (some file) o).1.fileInputValue = "") ∧
    (jsEndsWith (jsToLower file.name) ".pdf" = false →
      (handleUpload s (some file) o).1.fileInputValue =
        s.fileInputValue) := by
  constructor
  · intro h
    cases o <;>
      simp [handleUpload, h, uploadFinally, uploadSettle, uploadStart]
  · intro h
    simp [handleUpload, h]

/-- State in which the file input currently holds "notes.txt". -/
def selectedTxtState : AppState :=
  { initialState with fileInputValue := "notes.txt" }

/-- Counterexample for C9 as stated: an attempt rejected by the PDF
validation (file "notes.txt") sets the error but does NOT reset the
file-input value, which stays "notes.txt" ≠ "". -/
theorem upload_resets_file_input_cex :
    (handleUpload selectedTxtState (some ⟨"notes.txt"⟩)
      (.error "x")).1.error = some "Please select a PDF file" ∧
    (handleUpload selectedTxtState (some ⟨"notes.txt"⟩)
      (.error "x")).1.fileInputValue = "notes.txt" ∧
    ("notes.txt" : String) ≠ "" := by
  refine ⟨by decide, by decide, by decide⟩

/-- State in which the file input currently holds "notes.pdf". -/
def selectedPdfState : AppState :=
  { initialState with fileInputValue := "notes.pdf" }

/-- Witness for C9: a failed upload of "notes.pdf" resets the file-input
value to "". -/
theorem upload_resets_file_input_witness :
    jsEndsWith (jsToLower "notes.pdf") ".pdf" = true ∧
    (handleUpload selectedPdfState (some ⟨"notes.pdf"⟩)
      (.error "Upload failed")).1.fileInputValue = "" :=
  ⟨by decide,
   (upload_resets_file_input selectedPdfState ⟨"notes.pdf"⟩
     (.error "Upload failed")).1 (by decide)⟩

/-- C10: a successful upload whose response id is 0 stores `some 0`, which
the analyze guard's JS truthiness check treats as absent: every subsequent
analyze call errors with "Please upload a document first" and sends no
request. -/
theorem upload_id_zero_blocks_analyze (s : AppState) (file : JsFile)
    (resp : UploadResponse) (q : String)
    (o : Except String AnalyzeResponse)
    (hpdf : jsEndsWith (jsToLower file.name) ".pdf" = true)
    (hid : resp.id = 0) :
    ((handleUpload s (some file) (.ok resp)).1.activeDocId = some 0) ∧
    (handleAnalyze
        (setQuestion (handleUpload s (some file) (.ok resp)).1 q) o =
      ({ setQuestion (handleUpload s (some file) (.ok resp)).1 q with
          error := some "Please upload a document first" }, none)) := by
  have h1 : (handleUpload s (some file) (.ok resp)).1.activeDocId =
      some 0 := by
    simp [handleUpload, hpdf, uploadFinally, uploadSettle, uploadStart, hid]
  refine ⟨h1, ?_⟩
  have h2 : jsFalsyNum (setQuestion
      (handleUpload s (some file) (.ok resp)).1 q).activeDocId = true := by
    simp [setQuestion, jsFalsyNum, h1]
  simp [handleAnalyze, h2]

/-- A successful upload payload whose id is 0. -/
def zeroUploadResponse : UploadResponse :=
  { sampleUploadResponse with id := 0 }

/-- Witness for C10: uploading "notes.pdf" with response id 0 stores
`some 0` as the active document id, and analyze then rejects. -/
theorem upload_id_zero_blocks_analyze_witness :
    jsEndsWith (jsToLower "notes.pdf") ".pdf" = true ∧
    zeroUploadResponse.id = 0 ∧
    ((handleUpload initialState (some ⟨"notes.pdf"⟩)
        (.ok zeroUploadResponse)).1.activeDocId = some 0) :=
  ⟨by decide, rfl,
   (upload_id_zero_blocks_analyze initialState ⟨"notes.pdf"⟩
     zeroUploadResponse "What is the thesis?" (.error "x")
     (by decide) rfl).1⟩
